import Mathlib

/-!
Shallow embedding of `src/cli.py` from the ez_tweet repository, together with
theorems settling the behavioural claims about it.

Python strings are modelled as `List Char` (`PyStr`); dictionaries keyed by
strings are modelled either as association lists (insertion order preserved,
lookup returns the most recent binding, matching CPython dict overwrite
semantics for `get`) or, for read-only inputs such as `os.environ` and the
mapping argument of `Credentials.from_mapping`, as functions
`PyStr → Option PyStr`.  Fallible Python code (raising `ValueError`,
`FileNotFoundError`, tweepy errors) is modelled with `Except`.  The network
and the filesystem are passed in explicitly: `XClient.post` receives the
server's behaviour as a function and returns the list of create-post requests
it issued, and `parse_config_file` receives the filesystem as a function from
path to optional file contents.
-/

namespace EzTweet

/-- Python strings, modelled as lists of characters. -/
abbrev PyStr := List Char

/-- The ASCII whitespace characters removed by Python `str.strip()`. -/
def pyIsSpace (c : Char) : Bool :=
  c = ' ' || c = '\t' || c = '\n' || c = '\r' || c = '\x0b' || c = '\x0c'

/-- Removal of leading whitespace, the left half of Python `str.strip()`. -/
def lstrip (s : PyStr) : PyStr := s.dropWhile pyIsSpace

/-- Removal of trailing whitespace, the right half of Python `str.strip()`. -/
def rstrip (s : PyStr) : PyStr := (s.reverse.dropWhile pyIsSpace).reverse

/-- Python `str.strip()`: remove leading and trailing whitespace. -/
def pyStrip (s : PyStr) : PyStr := rstrip (lstrip s)

/-- Embedding of `validate_text` (src/cli.py lines 113-119): strip the text,
fail if the result is empty or longer than `max_length`, otherwise return the
stripped text.  `max_length` is a Python `int`, modelled as `Int`. -/
def validate_text (text : PyStr) (max_length : Int) : Except PyStr PyStr :=
  let cleaned := pyStrip text
  if cleaned = [] then
    Except.error ("Message is empty after trimming whitespace".data)
  else if (cleaned.length : Int) > max_length then
    Except.error ("Text exceeds maximum length of ".data
      ++ (toString max_length).data ++ " characters".data)
  else
    Except.ok cleaned

/-- The five required credential key names, `CREDENTIAL_KEYS`
(src/cli.py lines 18-24), in their fixed source order. -/
def CREDENTIAL_KEYS : List PyStr :=
  ["X_BEARER_TOKEN".data, "X_CONSUMER_KEY".data, "X_CONSUMER_SECRET".data,
   "X_ACCESS_TOKEN".data, "X_ACCESS_SECRET".data]

/-- Python truthiness of `mapping.get(key)`: `None` and the empty string are
falsy, every other string is truthy. -/
def truthyOpt : Option PyStr → Bool
  | none => false
  | some s => !s.isEmpty

/-- The `Credentials` dataclass (src/cli.py lines 27-33). -/
structure Credentials where
  bearer_token : PyStr
  consumer_key : PyStr
  consumer_secret : PyStr
  access_token : PyStr
  access_secret : PyStr
deriving DecidableEq

/-- The keys of `CREDENTIAL_KEYS` whose value in the mapping is absent or
empty: the list comprehension on src/cli.py line 37. -/
def missingKeys (mapping : PyStr → Option PyStr) : List PyStr :=
  CREDENTIAL_KEYS.filter (fun key => !truthyOpt (mapping key))

/-- Embedding of `Credentials.from_mapping` (src/cli.py lines 35-46): raise
`ValueError` naming the comma-joined missing keys when any of the five
required keys is absent or empty, otherwise build the record from the
mapping (guaranteed present there, so `getD []` never supplies its
default). -/
def Credentials.from_mapping (mapping : PyStr → Option PyStr) :
    Except PyStr Credentials :=
  let missing := missingKeys mapping
  if missing ≠ [] then
    Except.error ("Missing X credentials: ".data
      ++ List.intercalate ", ".data missing)
  else
    Except.ok
      { bearer_token := (mapping "X_BEARER_TOKEN".data).getD []
        consumer_key := (mapping "X_CONSUMER_KEY".data).getD []
        consumer_secret := (mapping "X_CONSUMER_SECRET".data).getD []
        access_token := (mapping "X_ACCESS_TOKEN".data).getD []
        access_secret := (mapping "X_ACCESS_SECRET".data).getD [] }

/-- A Python dict with string keys and values, modelled as the list of
assignments in the order they were performed. -/
abbrev PyDict := List (PyStr × PyStr)

/-- Python `dict.get`: the most recent assignment to the key wins, matching
CPython overwrite semantics when the same key is assigned repeatedly. -/
def dictGet (d : PyDict) (key : PyStr) : Option PyStr :=
  (d.reverse.find? (fun entry => decide (entry.1 = key))).map (fun entry => entry.2)

/-- Python `line.split(sep, 1)` for a single-character separator occurring in
the line: the part before the first occurrence and the part after it. -/
def splitOnce (sep : Char) (l : PyStr) : PyStr × PyStr :=
  (l.takeWhile (fun c => !decide (c = sep)),
   (l.dropWhile (fun c => !decide (c = sep))).drop 1)

/-- The body of the line loop of `parse_config_file` (src/cli.py lines
93-99): strip the raw line; skip it if it is blank or starts with `#`;
if it contains `=`, split on the first `=` and assign the stripped key to
the stripped value; otherwise skip it. -/
def parseLine (config : PyDict) (raw_line : PyStr) : PyDict :=
  let line := pyStrip raw_line
  if line = [] ∨ line.head? = some '#' then config
  else if '=' ∈ line then
    config ++ [(pyStrip (splitOnce '=' line).1, pyStrip (splitOnce '=' line).2)]
  else config

/-- Derived view of `parseLine`: the single binding a raw line contributes,
if any. -/
def lineBinding (raw_line : PyStr) : Option (PyStr × PyStr) :=
  let line := pyStrip raw_line
  if line = [] ∨ line.head? = some '#' then none
  else if '=' ∈ line then
    some (pyStrip (splitOnce '=' line).1, pyStrip (splitOnce '=' line).2)
  else none

/-- Contents of a file on disk as `parse_config_file` consumes it: either a
flat JSON object (the `json.load` branch, src/cli.py lines 86-89, whose
parsing and string coercion are delegated to the standard library and
abstracted here, together with the `.json` suffix dispatch) or a sequence
of text lines. -/
inductive FileData where
  | jsonData (obj : PyDict)
  | textData (lines : List PyStr)

/-- Embedding of `parse_config_file` (src/cli.py lines 82-100).  The
filesystem is passed explicitly as a partial map from path to contents;
a path absent from it fails the `os.path.exists` check. -/
def parse_config_file (fs : PyStr → Option FileData) (path : PyStr) :
    Except PyStr PyDict :=
  match fs path with
  | none =>
    Except.error ("Config file ".data ++ path ++ " does not exist".data)
  | some (FileData.jsonData obj) => Except.ok obj
  | some (FileData.textData ls) => Except.ok (ls.foldl parseLine [])

/-- Python `a or b` for `a : Optional[str]` and `b : str`: the left value
when it is truthy (present and non-empty), otherwise the right one. -/
def pyOrStr (a : Option PyStr) (b : PyStr) : PyStr :=
  match a with
  | none => b
  | some v => if v = [] then b else v

/-- The per-key merge on src/cli.py line 109:
`os.environ.get(key) or config.get(key, "")`. -/
def mergedValue (env : PyStr → Option PyStr) (config : PyDict)
    (key : PyStr) : PyStr :=
  pyOrStr (env key) ((dictGet config key).getD [])

/-- The configuration mapping `load_credentials` starts from (src/cli.py
lines 104-106): empty when no path is supplied (Python truthiness: `None`
or the empty string), otherwise the parse of the file. -/
def load_config (fs : PyStr → Option FileData) (config_path : Option PyStr) :
    Except PyStr PyDict :=
  match config_path with
  | none => Except.ok []
  | some p => if p = [] then Except.ok [] else parse_config_file fs p

/-- Embedding of `load_credentials` (src/cli.py lines 103-110): load the
optional config file, merge it under the environment for the five fixed
keys, and assemble the credential record. -/
def load_credentials (fs : PyStr → Option FileData)
    (env : PyStr → Option PyStr) (config_path : Option PyStr) :
    Except PyStr Credentials :=
  match load_config fs config_path with
  | Except.error e => Except.error e
  | Except.ok config =>
    Credentials.from_mapping
      (fun key => if key ∈ CREDENTIAL_KEYS
        then some (mergedValue env config key) else none)

/-- Behaviour of the remote create-tweet endpoint as seen through
`tweepy.Client.create_tweet`: an exception (transport or API error), or a
response whose `data` member is falsy (`none`) or a dict. -/
abbrev ServerBehavior := PyStr → Except PyStr (Option PyDict)

/-- The identifier extraction on src/cli.py line 72:
`response.data.get("id") if response and response.data else None`. -/
def extractId (respData : Option PyDict) : Option PyStr :=
  match respData with
  | none => none
  | some d => dictGet d "id".data

/-- Observable outcome of one call to `XClient.post`: the create-post
requests issued over the network, the log lines emitted, and the returned
tweet id (or the propagated exception). -/
structure PostOutcome where
  requests : List PyStr
  logs : List PyStr
  result : Except PyStr (Option PyStr)

/-- Embedding of `XClient.post` (src/cli.py lines 62-74).  In dry-run mode
it only logs and returns `None`; otherwise it issues exactly one
create-tweet request, propagates any exception, and else logs and returns
the extracted id. -/
def XClient.post (server : ServerBehavior) (text : PyStr) (dry_run : Bool) :
    PostOutcome :=
  if dry_run then
    { requests := []
      logs := ["[dry-run] Would have posted: ".data ++ text]
      result := Except.ok none }
  else
    match server text with
    | Except.error e =>
      { requests := [text], logs := [], result := Except.error e }
    | Except.ok respData =>
      let tweet_id := extractId respData
      { requests := [text]
        logs := ["Published tweet with id ".data
          ++ (match tweet_id with
              | some i => i
              | none => "None".data)]
        result := Except.ok tweet_id }

/-- The UI state `post_message` manipulates synchronously: whether the Post
button is enabled and the status line text. -/
structure AppState where
  buttonEnabled : Bool
  status : PyStr
deriving DecidableEq

/-- Observable outcome of the synchronous part of one `post_message` call:
the updated UI state, the error dialogs shown, and the background publish
job spawned (carrying the validated text), if any. -/
structure SubmitOutcome where
  state : AppState
  dialogs : List (PyStr × PyStr)
  worker : Option PyStr
deriving DecidableEq

/-- Embedding of the synchronous part of `TweetApp.post_message`
(src/cli.py lines 153-162 and the thread start on line 176): on validation
failure show an error dialog titled "Invalid text" and return with the
state untouched; on success disable the button, set the status line, and
spawn the background worker with the validated text. -/
def post_message (content : PyStr) (max_length : Int) (dry_run : Bool)
    (st : AppState) : SubmitOutcome :=
  match validate_text content max_length with
  | Except.error msg =>
    { state := st, dialogs := [("Invalid text".data, msg)], worker := none }
  | Except.ok validated =>
    { state :=
        { buttonEnabled := false
          status := if dry_run
            then "Logging (dry-run)...".data
            else "Posting...".data }
      dialogs := []
      worker := some validated }

/-! Helper lemmas about stripping. -/

theorem lstrip_idem (s : PyStr) : lstrip (lstrip s) = lstrip s := by
  unfold lstrip
  cases h : s.dropWhile pyIsSpace with
  | nil => simp
  | cons c cs =>
    have hc : pyIsSpace c = false := by
      have := List.head?_dropWhile_not pyIsSpace s
      rw [h] at this
      simpa using this
    simp [List.dropWhile_cons, hc]

theorem rstrip_eq_reverse_lstrip (s : PyStr) :
    rstrip s = (lstrip s.reverse).reverse := rfl

theorem rstrip_idem (s : PyStr) : rstrip (rstrip s) = rstrip s := by
  rw [rstrip_eq_reverse_lstrip, rstrip_eq_reverse_lstrip,
    List.reverse_reverse, lstrip_idem]

theorem lstrip_of_rstrip_of_lstrip (s : PyStr) (h : lstrip s = s) :
    lstrip (rstrip s) = rstrip s := by
  cases s with
  | nil => rfl
  | cons c cs =>
    have hc : pyIsSpace c = false := by
      unfold lstrip at h
      by_contra hcon
      simp only [Bool.not_eq_false] at hcon
      rw [List.dropWhile_cons, if_pos hcon] at h
      have := congrArg List.length h
      simp only [List.length_cons] at this
      have hle := (List.dropWhile_sublist (l := cs) pyIsSpace).length_le
      omega
    unfold rstrip
    rw [List.reverse_cons, List.dropWhile_append]
    split
    · simp [lstrip, List.dropWhile_cons, hc]
    · rename_i hne
      rw [List.reverse_append]
      simp only [List.reverse_cons, List.reverse_nil, List.nil_append,
        List.singleton_append]
      simp [lstrip, List.dropWhile_cons, hc]

theorem pyStrip_idem (s : PyStr) : pyStrip (pyStrip s) = pyStrip s := by
  unfold pyStrip
  rw [lstrip_of_rstrip_of_lstrip (lstrip s) (lstrip_idem s), rstrip_idem]

theorem pyStrip_decomp (s : PyStr) :
    ∃ pre suf, s = pre ++ pyStrip s ++ suf ∧
      (∀ c ∈ pre, pyIsSpace c = true) ∧ (∀ c ∈ suf, pyIsSpace c = true) := by
  refine ⟨s.takeWhile pyIsSpace,
    ((lstrip s).reverse.takeWhile pyIsSpace).reverse, ?_, ?_, ?_⟩
  · have h1 : s = s.takeWhile pyIsSpace ++ lstrip s :=
      (List.takeWhile_append_dropWhile pyIsSpace s).symm
    have h2 : (lstrip s).reverse =
        (lstrip s).reverse.takeWhile pyIsSpace ++ ((pyStrip s).reverse) := by
      have := (List.takeWhile_append_dropWhile pyIsSpace (lstrip s).reverse).symm
      simp only [pyStrip, rstrip, List.reverse_reverse]
      exact this
    have h3 : lstrip s =
        pyStrip s ++ ((lstrip s).reverse.takeWhile pyIsSpace).reverse := by
      have := congrArg List.reverse h2
      simpa [List.reverse_append] using this
    calc s = s.takeWhile pyIsSpace ++ lstrip s := h1
      _ = s.takeWhile pyIsSpace
            ++ (pyStrip s ++ ((lstrip s).reverse.takeWhile pyIsSpace).reverse) := by
          rw [← h3]
      _ = s.takeWhile pyIsSpace ++ pyStrip s
            ++ ((lstrip s).reverse.takeWhile pyIsSpace).reverse := by
          rw [List.append_assoc]
  · intro c hc
    exact List.mem_takeWhile_imp hc
  · intro c hc
    rw [List.mem_reverse] at hc
    exact List.mem_takeWhile_imp hc

/-- Characterisation of success of `validate_text`. -/
theorem validate_text_ok_iff (t : PyStr) (m : Int) (r : PyStr) :
    validate_text t m = Except.ok r ↔
      (pyStrip t ≠ [] ∧ ((pyStrip t).length : Int) ≤ m ∧ r = pyStrip t) := by
  simp only [validate_text]
  split
  · rename_i h
    simp only [reduceCtorEq, false_iff, not_and]
    intro hne
    exact absurd h hne
  · rename_i h
    split
    · rename_i hlen
      simp only [reduceCtorEq, false_iff, not_and]
      intro _ hcon
      omega
    · rename_i hlen
      constructor
      · intro hok
        refine ⟨h, by omega, ?_⟩
        exact (Except.ok.injEq _ _).mp hok |>.symm
      · rintro ⟨-, -, hr⟩
        rw [hr]

/-- C1: for every text and every configured positive maximum length,
`validate_text` succeeds iff the stripped text is non-empty and at most the
maximum long; on success it returns exactly the stripped text; and stripping
removes only leading and trailing whitespace, leaving the interior (and in
particular internal whitespace) unchanged.  The embedding is a pure
function, so it has no side effects by construction. -/
theorem validate_text_spec (t : PyStr) (m : Int) (_hm : 0 < m) :
    ((∃ r, validate_text t m = Except.ok r) ↔
      (pyStrip t ≠ [] ∧ ((pyStrip t).length : Int) ≤ m)) ∧
    (∀ r, validate_text t m = Except.ok r → r = pyStrip t) ∧
    (∃ pre suf, t = pre ++ pyStrip t ++ suf ∧
      (∀ c ∈ pre, pyIsSpace c = true) ∧ (∀ c ∈ suf, pyIsSpace c = true)) := by
  refine ⟨⟨?_, ?_⟩, ?_, pyStrip_decomp t⟩
  · rintro ⟨r, hr⟩
    have h := (validate_text_ok_iff t m r).mp hr
    exact ⟨h.1, h.2.1⟩
  · rintro ⟨h1, h2⟩
    exact ⟨pyStrip t, (validate_text_ok_iff t m (pyStrip t)).mpr ⟨h1, h2, rfl⟩⟩
  · intro r hr
    exact ((validate_text_ok_iff t m r).mp hr).2.2

/-- Witness for C1 at the concrete input `"  hello  "` with maximum 280. -/
theorem validate_text_spec_witness :
    (0 : Int) < 280 ∧
    validate_text "  hello  ".data 280 = Except.ok "hello".data := by
  have h := validate_text_spec "  hello  ".data 280 (by decide)
  obtain ⟨r, hr⟩ := h.1.mpr ⟨by decide, by decide⟩
  have hrs : r = pyStrip "  hello  ".data := h.2.1 r hr
  refine ⟨by decide, ?_⟩
  rw [hr, hrs]
  rfl

/-- C2: `Credentials.from_mapping` fails with a single `ValueError` whose
message lists, comma-separated and in the fixed order of `CREDENTIAL_KEYS`,
exactly those required keys that are absent or empty, and succeeds whenever
all five are present and non-empty. -/
theorem from_mapping_spec (mapping : PyStr → Option PyStr) :
    (∀ key, key ∈ missingKeys mapping ↔
      (key ∈ CREDENTIAL_KEYS ∧ truthyOpt (mapping key) = false)) ∧
    (missingKeys mapping ≠ [] →
      Credentials.from_mapping mapping =
        Except.error ("Missing X credentials: ".data
          ++ List.intercalate ", ".data (missingKeys mapping))) ∧
    ((∀ key ∈ CREDENTIAL_KEYS, truthyOpt (mapping key) = true) →
      ∃ c, Credentials.from_mapping mapping = Except.ok c) := by
  refine ⟨?_, ?_, ?_⟩
  · intro key
    simp [missingKeys, List.mem_filter]
  · intro h
    simp only [Credentials.from_mapping]
    rw [if_pos h]
  · intro h
    have hnil : missingKeys mapping = [] := by
      rw [missingKeys, List.filter_eq_nil_iff]
      intro key hkey
      simp [h key hkey]
    refine ⟨⟨(mapping "X_BEARER_TOKEN".data).getD [],
      (mapping "X_CONSUMER_KEY".data).getD [],
      (mapping "X_CONSUMER_SECRET".data).getD [],
      (mapping "X_ACCESS_TOKEN".data).getD [],
      (mapping "X_ACCESS_SECRET".data).getD []⟩, ?_⟩
    simp only [Credentials.from_mapping]
    rw [if_neg (by simp [hnil])]

/-- Witness for C2 at a concrete mapping supplying only a non-empty bearer
token: assembly fails and the message lists the other four keys in order. -/
theorem from_mapping_spec_witness :
    missingKeys
        (fun key => if key = "X_BEARER_TOKEN".data
          then some "tok".data else none) ≠ [] ∧
    Credentials.from_mapping
        (fun key => if key = "X_BEARER_TOKEN".data
          then some "tok".data else none) =
      Except.error
        ("Missing X credentials: X_CONSUMER_KEY, X_CONSUMER_SECRET, X_ACCESS_TOKEN, X_ACCESS_SECRET".data) := by
  have h := (from_mapping_spec
    (fun key => if key = "X_BEARER_TOKEN".data
      then some "tok".data else none)).2.1 (by decide)
  refine ⟨by decide, ?_⟩
  rw [h]
  rfl

/-- C3: the per-key merge used by `load_credentials` prefers the environment
value when it is present and non-empty, otherwise falls back to the
file-sourced value when present, otherwise yields the empty string; and
`load_credentials` assembles its credentials exactly from these merged
values over the five fixed keys. -/
theorem mergedValue_spec (env : PyStr → Option PyStr) (config : PyDict)
    (key : PyStr) (_hkey : key ∈ CREDENTIAL_KEYS) :
    (∀ v, env key = some v → v ≠ [] → mergedValue env config key = v) ∧
    ((env key = none ∨ env key = some []) →
      ∀ w, dictGet config key = some w → mergedValue env config key = w) ∧
    ((env key = none ∨ env key = some []) →
      dictGet config key = none → mergedValue env config key = []) ∧
    (∀ fs config_path, load_config fs config_path = Except.ok config →
      load_credentials fs env config_path =
        Credentials.from_mapping (fun k => if k ∈ CREDENTIAL_KEYS
          then some (mergedValue env config k) else none)) := by
  refine ⟨?_, ?_, ?_, ?_⟩
  · intro v hv hne
    simp [mergedValue, pyOrStr, hv, hne]
  · rintro (h | h) w hw <;> simp [mergedValue, pyOrStr, h, hw]
  · rintro (h | h) hw <;> simp [mergedValue, pyOrStr, h, hw]
  · intro fs config_path hcfg
    simp [load_credentials, hcfg]

/-- Witness for C3: bearer token set to `"env"` in the environment and to
`"file"` in the file-backed mapping; the environment wins. -/
theorem mergedValue_spec_witness :
    mergedValue (fun key => if key = "X_BEARER_TOKEN".data
        then some "env".data else none)
      [("X_BEARER_TOKEN".data, "file".data)] "X_BEARER_TOKEN".data
      = "env".data := by
  have h := (mergedValue_spec
    (fun key => if key = "X_BEARER_TOKEN".data then some "env".data else none)
    [("X_BEARER_TOKEN".data, "file".data)]
    "X_BEARER_TOKEN".data (by decide)).1 "env".data (by decide) (by decide)
  exact h

/-- C4: `XClient.post` in dry-run mode issues no network request, logs only
the text that would have been posted, and returns `None`. -/
theorem post_dry_run_spec (server : ServerBehavior) (text : PyStr) :
    XClient.post server text true =
      { requests := []
        logs := ["[dry-run] Would have posted: ".data ++ text]
        result := Except.ok none } := rfl

/-- C5: a non-rehearsal `XClient.post` issues exactly one create-post
request; when the server raises, the exception propagates unchanged; when
it answers, the call returns the identifier extracted from the response. -/
theorem post_live_spec (server : ServerBehavior) (text : PyStr) :
    (XClient.post server text false).requests = [text] ∧
    (∀ e, server text = Except.error e →
      (XClient.post server text false).result = Except.error e) ∧
    (∀ respData, server text = Except.ok respData →
      (XClient.post server text false).result
        = Except.ok (extractId respData)) := by
  refine ⟨?_, ?_, ?_⟩
  · cases h : server text <;> simp [XClient.post, h]
  · intro e he
    simp [XClient.post, he]
  · intro respData hr
    simp [XClient.post, hr]

/-- Witness for C5 at a concrete server that answers with id `"123"`. -/
theorem post_live_spec_witness :
    (XClient.post (fun _ => Except.ok (some [("id".data, "123".data)]))
        "hi".data false).requests = ["hi".data] ∧
    (XClient.post (fun _ => Except.ok (some [("id".data, "123".data)]))
        "hi".data false).result = Except.ok (some "123".data) := by
  have h := post_live_spec
    (fun _ => Except.ok (some [("id".data, "123".data)])) "hi".data
  refine ⟨h.1, ?_⟩
  rw [h.2.2 (some [("id".data, "123".data)]) rfl]
  rfl

/-- C6: configuration loading yields an empty mapping when no path is
supplied, and fails with the file-not-found error when the supplied path is
absent from the filesystem. -/
theorem load_config_spec (fs : PyStr → Option FileData) (path : PyStr) :
    load_config fs none = Except.ok [] ∧
    (fs path = none →
      parse_config_file fs path =
        Except.error ("Config file ".data ++ path
          ++ " does not exist".data)) ∧
    (fs path = none → path ≠ [] →
      load_config fs (some path) =
        Except.error ("Config file ".data ++ path
          ++ " does not exist".data)) := by
  refine ⟨rfl, ?_, ?_⟩
  · intro h
    simp [parse_config_file, h]
  · intro h hne
    simp [load_config, parse_config_file, h, hne]

/-- Witness for C6 on the empty filesystem and the path `"creds.txt"`. -/
theorem load_config_spec_witness :
    load_config (fun _ => (none : Option FileData)) none = Except.ok [] ∧
    load_config (fun _ => (none : Option FileData)) (some "creds.txt".data) =
      Except.error "Config file creds.txt does not exist".data := by
  have h := load_config_spec (fun _ => (none : Option FileData)) "creds.txt".data
  refine ⟨h.1, ?_⟩
  rw [h.2.2 rfl (by decide)]
  rfl

/-- Splitting on the first occurrence of the separator: everything before
the first `sep` becomes the key part, everything after it the value part. -/
theorem splitOnce_eq (sep : Char) (a b : PyStr) (ha : sep ∉ a) :
    splitOnce sep (a ++ sep :: b) = (a, b) := by
  have hp : ∀ c ∈ a, (!decide (c = sep)) = true := by
    intro c hc
    simp only [Bool.not_eq_true', decide_eq_false_iff_not]
    exact fun he => ha (he ▸ hc)
  unfold splitOnce
  rw [List.takeWhile_append_of_pos hp, List.dropWhile_append_of_pos hp]
  simp [List.takeWhile_cons, List.dropWhile_cons]

/-- C7: in the line-oriented branch of `parse_config_file`, a line that is
blank after stripping or starts with `#` leaves the mapping unchanged; a
remaining line containing `=` is split at its first `=` into a key and a
value, each stripped of surrounding whitespace, and that binding is added;
and the file parse is exactly the fold of this per-line step over the
lines. -/
theorem parse_lines_spec (cfg : PyDict) (raw_line : PyStr) :
    ((pyStrip raw_line = [] ∨ (pyStrip raw_line).head? = some '#') →
      parseLine cfg raw_line = cfg) ∧
    (∀ a b, pyStrip raw_line = a ++ '=' :: b → '=' ∉ a →
      (pyStrip raw_line).head? ≠ some '#' →
      parseLine cfg raw_line = cfg ++ [(pyStrip a, pyStrip b)]) ∧
    (∀ fs path ls, fs path = some (FileData.textData ls) →
      parse_config_file fs path = Except.ok (ls.foldl parseLine [])) := by
  refine ⟨?_, ?_, ?_⟩
  · intro h
    simp only [parseLine]
    rw [if_pos h]
  · intro a b hab hnin hhead
    have hne : pyStrip raw_line ≠ [] := by
      rw [hab]; simp
    have hmem : '=' ∈ pyStrip raw_line := by
      rw [hab]; simp
    simp only [parseLine]
    rw [if_neg (not_or.mpr ⟨hne, hhead⟩), if_pos hmem, hab,
      splitOnce_eq '=' a b hnin]
  · intro fs path ls h
    simp [parse_config_file, h]

/-- Witness for C7 on the concrete line `" KEY = value "`. -/
theorem parse_lines_spec_witness :
    parseLine [] " KEY = value ".data = [("KEY".data, "value".data)] := by
  have h := (parse_lines_spec [] " KEY = value ".data).2.1
    "KEY ".data " value".data (by decide) (by decide) (by decide)
  rw [h]
  rfl

/-- C8: when validation of the current text fails, `post_message` shows one
error dialog titled "Invalid text" carrying the failure message, spawns no
background publish job (so no network call is made), and leaves the UI
state — in particular the enabled submit button — exactly as it was. -/
theorem post_message_invalid_spec (content : PyStr) (max_length : Int)
    (dry_run : Bool) (st : AppState) (msg : PyStr)
    (h : validate_text content max_length = Except.error msg) :
    post_message content max_length dry_run st =
      { state := st
        dialogs := [("Invalid text".data, msg)]
        worker := none } := by
  simp [post_message, h]

/-- Witness for C8 on whitespace-only input with the button enabled. -/
theorem post_message_invalid_witness :
    post_message "   ".data 280 false ⟨true, []⟩ =
      { state := ⟨true, []⟩
        dialogs := [("Invalid text".data,
          "Message is empty after trimming whitespace".data)]
        worker := none } :=
  post_message_invalid_spec "   ".data 280 false ⟨true, []⟩
    "Message is empty after trimming whitespace".data rfl

/-- The per-line step either leaves the mapping unchanged or appends the
line's single binding. -/
theorem parseLine_eq_bind (cfg : PyDict) (l : PyStr) :
    parseLine cfg l = (match lineBinding l with
      | none => cfg
      | some kv => cfg ++ [kv]) := by
  simp only [parseLine, lineBinding]
  by_cases h1 : pyStrip l = [] ∨ (pyStrip l).head? = some '#'
  · simp [h1]
  · by_cases h2 : '=' ∈ pyStrip l
    · simp [h1, h2]
    · simp [h1, h2]

/-- Looking up a key after appending one binding. -/
theorem dictGet_append (d : PyDict) (k v key : PyStr) :
    dictGet (d ++ [(k, v)]) key =
      if k = key then some v else dictGet d key := by
  simp only [dictGet, List.reverse_append, List.reverse_cons,
    List.reverse_nil, List.nil_append, List.singleton_append, List.find?_cons]
  by_cases h : k = key
  · simp [h]
  · simp [h]

/-- Lines contributing no binding for a key leave its lookup unchanged. -/
theorem dictGet_foldl_of_no_binding (lines : List PyStr) (cfg : PyDict)
    (k : PyStr) (h : ∀ l ∈ lines, ∀ w, lineBinding l ≠ some (k, w)) :
    dictGet (lines.foldl parseLine cfg) k = dictGet cfg k := by
  induction lines generalizing cfg with
  | nil => rfl
  | cons l ls ih =>
    rw [List.foldl_cons, ih _ (fun x hx => h x (List.mem_cons_of_mem _ hx))]
    rw [parseLine_eq_bind]
    cases hb : lineBinding l with
    | none => rfl
    | some kv =>
      obtain ⟨k1, v1⟩ := kv
      rw [dictGet_append]
      have hk : k1 ≠ k := fun he => h l (List.mem_cons_self _ _) v1 (by rw [hb, he])
      rw [if_neg hk]

/-- C9: when the same key is bound by several lines of a line-oriented
credentials file, the value present in the parsed mapping is the one from
the last such line — later assignments silently overwrite earlier ones. -/
theorem parse_last_binding_wins (fs : PyStr → Option FileData) (path : PyStr)
    (lines1 lines2 : List PyStr) (line k v : PyStr)
    (hfs : fs path = some (FileData.textData (lines1 ++ line :: lines2)))
    (hbind : lineBinding line = some (k, v))
    (hrest : ∀ l ∈ lines2, ∀ w, lineBinding l ≠ some (k, w)) :
    parse_config_file fs path =
      Except.ok ((lines1 ++ line :: lines2).foldl parseLine []) ∧
    dictGet ((lines1 ++ line :: lines2).foldl parseLine []) k = some v := by
  refine ⟨by simp [parse_config_file, hfs], ?_⟩
  rw [List.foldl_append, List.foldl_cons,
    dictGet_foldl_of_no_binding lines2 _ k hrest,
    parseLine_eq_bind, hbind, dictGet_append, if_pos rfl]

/-- Witness for C9 on the concrete two-line file `A=1`, `A=2`. -/
theorem parse_last_binding_wins_witness :
    dictGet ((["A=1".data, "A=2".data] : List PyStr).foldl parseLine []) "A".data
      = some "2".data := by
  have h := parse_last_binding_wins
    (fun _ => some (FileData.textData ["A=1".data, "A=2".data]))
    "c.txt".data ["A=1".data] [] "A=2".data "A".data "2".data
    rfl (by decide) (by intro l hl; cases hl)
  exact h.2

/-- C10: validation is idempotent — revalidating a successfully validated
text with the same maximum succeeds and returns it unchanged. -/
theorem validate_text_idem (t r : PyStr) (m : Int)
    (h : validate_text t m = Except.ok r) :
    validate_text r m = Except.ok r := by
  obtain ⟨hne, hlen, hr⟩ := (validate_text_ok_iff t m r).mp h
  subst hr
  refine (validate_text_ok_iff (pyStrip t) m (pyStrip t)).mpr ?_
  rw [pyStrip_idem]
  exact ⟨hne, hlen, rfl⟩

/-- Witness for C10 on the already validated text from `"  hello  "`. -/
theorem validate_text_idem_witness :
    validate_text "hello".data 280 = Except.ok "hello".data := by
  have h0 : validate_text "  hello  ".data 280 = Except.ok "hello".data := by
    rfl
  exact validate_text_idem "  hello  ".data "hello".data 280 h0

end EzTweet
